import Mathlib

/-!
# Verification of the host-side protocol engine (`CommGeneric`)

A shallow embedding of `artiq/coredevice/comm_generic.py`: the framing /
codec / serve-loop engine that drives the core device over a byte-stream
transport.

Modelling conventions:
* a byte is a `Nat` in 0..255, a byte string is a `List Nat`;
* Python machine integers read off the wire are `Int` with explicit
  two's-complement conversion (`struct.unpack` of `">l"` / `">q"`);
* the transport's incoming bytes are a `List Nat` carried inside the
  reader state, `read(n)` takes the first `n` bytes or fails (the
  transport contract: exactly `n` bytes or an error);
* Python exceptions become an explicit `Err` type; since a raise leaves
  the already-performed attribute mutations in place, operations return
  the post-raise state next to the error;
* IEEE float payloads are kept as their raw 8 wire bytes (their numeric
  semantics plays no role here);
* UTF-8 encode/decode is the identity on byte lists (string contents are
  opaque byte lists throughout).
-/

namespace CommGeneric

/-- Big-endian unsigned integer value of a byte list (helper for
`struct.unpack` of unsigned fields). -/
def beUInt (bs : List Nat) : Nat := bs.foldl (fun a b => a * 256 + b) 0

/-- Reinterpret a 32-bit unsigned value as two's-complement signed
(`struct.unpack(">l", ...)`). -/
def toSigned32 (u : Nat) : Int := if u < 2 ^ 31 then (u : Int) else (u : Int) - 2 ^ 32

/-- Reinterpret a 64-bit unsigned value as two's-complement signed
(`struct.unpack(">q", ...)`). -/
def toSigned64 (u : Nat) : Int := if u < 2 ^ 63 then (u : Int) else (u : Int) - 2 ^ 64

/-- Big-endian 4-byte two's-complement encoding (`struct.pack(">l", v)`). -/
def be4 (v : Int) : List Nat :=
  let u := (v % (2 ^ 32 : Int)).toNat
  [u / 2 ^ 24 % 256, u / 2 ^ 16 % 256, u / 2 ^ 8 % 256, u % 256]

/-- Big-endian 8-byte two's-complement encoding (`struct.pack(">q", v)`). -/
def be8 (v : Int) : List Nat :=
  let u := (v % (2 ^ 64 : Int)).toNat
  [u / 2 ^ 56 % 256, u / 2 ^ 48 % 256, u / 2 ^ 40 % 256, u / 2 ^ 32 % 256,
   u / 2 ^ 24 % 256, u / 2 ^ 16 % 256, u / 2 ^ 8 % 256, u % 256]

/-- Encoded bytes of a literal (helper for the fixed message strings
the code embeds, all ASCII, where the UTF-8 bytes are the code
points). -/
def strBytes (s : String) : List Nat := s.data.map Char.toNat

/-- `_H2DMsgType`: host-to-device message kinds. -/
inductive H2DMsgType where
  | LOG_REQUEST | IDENT_REQUEST | SWITCH_CLOCK | LOAD_LIBRARY | RUN_KERNEL
  | RPC_REPLY | RPC_EXCEPTION
  | FLASH_READ_REQUEST | FLASH_WRITE_REQUEST | FLASH_ERASE_REQUEST | FLASH_REMOVE_REQUEST
  deriving DecidableEq, Repr

/-- Integer tag of each host-to-device kind (the `Enum` values 1..11). -/
def H2DMsgType.val : H2DMsgType → Nat
  | .LOG_REQUEST => 1
  | .IDENT_REQUEST => 2
  | .SWITCH_CLOCK => 3
  | .LOAD_LIBRARY => 4
  | .RUN_KERNEL => 5
  | .RPC_REPLY => 6
  | .RPC_EXCEPTION => 7
  | .FLASH_READ_REQUEST => 8
  | .FLASH_WRITE_REQUEST => 9
  | .FLASH_ERASE_REQUEST => 10
  | .FLASH_REMOVE_REQUEST => 11

/-- `_D2HMsgType`: device-to-host message kinds. -/
inductive D2HMsgType where
  | LOG_REPLY | IDENT_REPLY | CLOCK_SWITCH_COMPLETED | CLOCK_SWITCH_FAILED
  | LOAD_COMPLETED | LOAD_FAILED
  | KERNEL_FINISHED | KERNEL_STARTUP_FAILED | KERNEL_EXCEPTION
  | RPC_REQUEST
  | FLASH_READ_REPLY | FLASH_OK_REPLY | FLASH_ERROR_REPLY
  deriving DecidableEq, Repr

/-- `_D2HMsgType(raw_type)`: the enum constructor lookup; an integer
outside 1..13 raises `ValueError`, modelled as `none`. -/
def d2hOfNat : Nat → Option D2HMsgType
  | 1 => some .LOG_REPLY
  | 2 => some .IDENT_REPLY
  | 3 => some .CLOCK_SWITCH_COMPLETED
  | 4 => some .CLOCK_SWITCH_FAILED
  | 5 => some .LOAD_COMPLETED
  | 6 => some .LOAD_FAILED
  | 7 => some .KERNEL_FINISHED
  | 8 => some .KERNEL_STARTUP_FAILED
  | 9 => some .KERNEL_EXCEPTION
  | 10 => some .RPC_REQUEST
  | 11 => some .FLASH_READ_REPLY
  | 12 => some .FLASH_OK_REPLY
  | 13 => some .FLASH_ERROR_REPLY
  | _ => none

/-- The Python exceptions that the engine can raise, by raise site. -/
inductive Err where
  /-- the transport's `read` failing to deliver the requested bytes -/
  | shortRead
  /-- `IOError("Read underrun ...")` in `_read_header` -/
  | readUnderrun
  /-- `OSError("Connection closed")` on a zero length field -/
  | connClosed
  /-- `IOError("Read overrun in message header ...")` on length < 9 -/
  | headerOverrun
  /-- `ValueError` from `_D2HMsgType(raw_type)` on an unknown kind code -/
  | unknownType
  /-- `IOError("Read overrun while trying to read ...")` in `_read_chunk` -/
  | readOverrun
  /-- `IOError("Unknown RPC value tag ...")` in `_receive_rpc_value` -/
  | unknownTag
  /-- `KeyError` from an `rpc_map[...]` lookup with an absent index -/
  | keyError
  /-- `TypeError` from `range(...)` applied to non-integer values -/
  | typeError
  /-- `ValueError`: zero `range` step, or the RPC result check -/
  | valueError
  /-- `ZeroDivisionError` from `Fraction(n, 0)` -/
  | zeroDivision
  /-- `ValueError` from the 1-element destructuring of `traceback.extract_tb` -/
  | unpackError
  /-- `IOError("Incorrect reply from device ...")` in `_read_expect` -/
  | unexpectedReply
  /-- `core_language.ARTIQException` raised by `_serve_exception` -/
  | artiqException
  /-- out of fuel (an artifact of the embedding, never reached with
  enough fuel; Python's loops/recursion have no such bound) -/
  | fuel
  deriving DecidableEq, Repr

/-- The reader's mutable state: `_read_length` (remaining body bytes of
the current message, a Python `int`) together with the transport's
pending incoming bytes. -/
structure ReadState where
  readLength : Int
  stream : List Nat
  deriving DecidableEq, Repr

/-- `CommGeneric.__init__` sets `_read_length = 0` (the transport bytes
are whatever the channel will deliver). -/
def initReadState (s : List Nat) : ReadState := { readLength := 0, stream := s }

/-- The transport's `read(length)`: exactly `length` bytes or failure. -/
def transportRead (n : Nat) (s : List Nat) : Option (List Nat × List Nat) :=
  if n ≤ s.length then some (s.take n, s.drop n) else none

/-- The synchronization loop of `_read_header`: scan for four
consecutive `0x5a` bytes, a non-sync byte resetting the counter; returns
the bytes following the sync sequence (`none` when the stream ends
first). -/
def syncLoop (c : Nat) : List Nat → Option (List Nat)
  | [] => none
  | b :: rest =>
    if b = 0x5a then
      if c + 1 = 4 then some rest else syncLoop (c + 1) rest
    else syncLoop 0 rest

/-- `_read_header`: underrun check, sync scan, 4-byte signed length
(assigned to `_read_length` before any validation), zero-length check,
1-byte kind code (validated through the enum), length-minimum check,
then `_read_length -= 9`.  On an error the state reflects the mutations
performed before the raise. -/
def readHeader (st : ReadState) : Except Err D2HMsgType × ReadState :=
  if 0 < st.readLength then (.error .readUnderrun, st)
  else
    match syncLoop 0 st.stream with
    | none => (.error .shortRead, { st with stream := [] })
    | some s1 =>
      match transportRead 4 s1 with
      | none => (.error .shortRead, { st with stream := [] })
      | some (lenBytes, s2) =>
        let len := toSigned32 (beUInt lenBytes)
        let st2 : ReadState := { readLength := len, stream := s2 }
        if len = 0 then (.error .connClosed, st2)
        else
          match transportRead 1 s2 with
          | none => (.error .shortRead, { st2 with stream := [] })
          | some (tyBytes, s3) =>
            let st3 : ReadState := { st2 with stream := s3 }
            match d2hOfNat (beUInt tyBytes) with
            | none => (.error .unknownType, st3)
            | some ty =>
              if len < 9 then (.error .headerOverrun, st3)
              else (.ok ty, { st3 with readLength := len - 9 })

/-- `_read_expect(ty)`: protocol-mismatch check of the just-read kind
against the expected one. -/
def readExpect (expected actual : D2HMsgType) : Except Err Unit :=
  if actual ≠ expected then .error .unexpectedReply else .ok ()

/-- `_read_chunk(length)`: overrun check against `_read_length`, then
decrement it and read from the transport.  (The decrement precedes the
transport read, as in the source.) -/
def readChunk (n : Nat) (st : ReadState) : Except Err (List Nat) × ReadState :=
  if st.readLength < (n : Int) then (.error .readOverrun, st)
  else
    let st1 : ReadState := { st with readLength := st.readLength - (n : Int) }
    match transportRead n st.stream with
    | none => (.error .shortRead, { st1 with stream := [] })
    | some (bs, s) => (.ok bs, { st1 with stream := s })

/-- `_read_int8`: one byte, unsigned (`struct.unpack("B", ...)`). -/
def readInt8 (st : ReadState) : Except Err Nat × ReadState :=
  match readChunk 1 st with
  | (.error e, s) => (.error e, s)
  | (.ok bs, s) => (.ok (beUInt bs), s)

/-- `_read_int32`: four bytes, big-endian signed. -/
def readInt32 (st : ReadState) : Except Err Int × ReadState :=
  match readChunk 4 st with
  | (.error e, s) => (.error e, s)
  | (.ok bs, s) => (.ok (toSigned32 (beUInt bs)), s)

/-- `_read_int64`: eight bytes, big-endian signed. -/
def readInt64 (st : ReadState) : Except Err Int × ReadState :=
  match readChunk 8 st with
  | (.error e, s) => (.error e, s)
  | (.ok bs, s) => (.ok (toSigned64 (beUInt bs)), s)

/-- `_read_bytes`: an int32 length prefix, then that many bytes.  (A
negative prefix would hand a negative count to the transport's `read`,
which is outside its contract; modelled as a transport failure.) -/
def readBytes (st : ReadState) : Except Err (List Nat) × ReadState :=
  match readInt32 st with
  | (.error e, s) => (.error e, s)
  | (.ok n, s) => if n < 0 then (.error .shortRead, s) else readChunk n.toNat s

/-- `_read_string`: a byte blob with its trailing NUL stripped (UTF-8
decoding is the identity in this model). -/
def readString (st : ReadState) : Except Err (List Nat) × ReadState :=
  match readBytes st with
  | (.error e, s) => (.error e, s)
  | (.ok bs, s) => (.ok bs.dropLast, s)

/-- The writer's mutable state: `_write_type` and the `_write_buffer`
list of pending chunks. -/
structure WriteState where
  writeType : H2DMsgType
  writeBuffer : List (List Nat)
  deriving DecidableEq, Repr

/-- `_write_header(ty)`: record the kind and discard any buffered
chunks. -/
def writeHeader (ty : H2DMsgType) (_st : WriteState) : WriteState :=
  { writeType := ty, writeBuffer := [] }

/-- `_write_flush`: the bytes put on the transport (the packed sync +
length + kind header followed by each buffered chunk in order), together
with the writer state afterwards — the source does not clear
`_write_buffer` here (only `_write_header` does). -/
def writeFlush (st : WriteState) : List Nat × WriteState :=
  let length : Nat := (st.writeBuffer.map List.length).foldl (· + ·) 0
  (be4 0x5a5a5a5a ++ be4 (9 + (length : Int)) ++ [st.writeType.val] ++ st.writeBuffer.flatten,
   st)

/-- The chunks `_write_string(value)` appends: the int32 length of the
NUL-terminated encoding, then the bytes plus the NUL (via
`_write_bytes`). -/
def stringChunks (s : List Nat) : List (List Nat) :=
  [be4 ((s.length : Int) + 1), s ++ [0]]

/-- The RPC value tagged union decoded by `_receive_rpc_value`.  The
sentinel is the module-level `_rpc_sentinel` object (returned for tag 0
and compared by identity in `_receive_rpc_args`). -/
inductive RpcVal where
  | sentinel
  | tuple (elems : List RpcVal)
  | pyNone
  | pyBool (b : Bool)
  | int32 (v : Int)
  | int64 (v : Int)
  /-- raw big-endian IEEE-754 wire bytes; numeric semantics uninterpreted -/
  | float64 (bits : List Nat)
  /-- a constructed `Fraction`: reduced, positive denominator -/
  | fraction (num den : Int)
  | str (bs : List Nat)
  | list (elems : List RpcVal)
  | range' (lower upper step : Int)
  /-- the object `rpc_map[index]`, identified here by its index -/
  | obj (index : Int)

/-- A host-side object registered in the RPC map: invoked with the
decoded positional arguments, it either returns a Python value or
raises.  (`CallOutcome` is defined below.) -/
def RpcMap (α : Type) : Type := Int → Option α

/-- `fractions.Fraction(numerator, denominator)`: a zero denominator
raises `ZeroDivisionError`; otherwise the pair is normalized to lowest
terms with a positive denominator (`g = gcd`, negated when the
denominator is negative, then floor-divide both — exact here, so any
division convention agrees). -/
def mkFraction (n d : Int) : Except Err (Int × Int) :=
  if d = 0 then .error .zeroDivision
  else
    let g : Int := if d < 0 then -(Int.gcd n d : Int) else (Int.gcd n d : Int)
    .ok (n / g, d / g)

/-- Python `range()` argument conversion (`__index__`): ints and bools
are accepted, anything else raises `TypeError`. -/
def asIndex : RpcVal → Except Err Int
  | .int32 v => .ok v
  | .int64 v => .ok v
  | .pyBool b => .ok (if b then 1 else 0)
  | _ => .error .typeError

mutual

/-- `_receive_rpc_value(rpc_map)`: read one tag byte and branch.  The
fuel only bounds recursion depth (each level consumes at least one
byte, so any stream-length bound suffices); `objs` is the membership
view of the RPC map used by the `o` tag. -/
def decodeValueF (objs : RpcMap Unit) : Nat → ReadState → Except Err RpcVal × ReadState
  | 0, st => (.error .fuel, st)
  | fuel + 1, st =>
    match readInt8 st with
    | (.error e, s) => (.error e, s)
    | (.ok tagByte, s) =>
      if tagByte = 0 then (.ok .sentinel, s)
      else if tagByte = 116 then  -- ord 't'
        match readInt8 s with
        | (.error e, s1) => (.error e, s1)
        | (.ok len, s1) =>
          match decodeManyF objs fuel len s1 with
          | (.error e, s2) => (.error e, s2)
          | (.ok vs, s2) => (.ok (.tuple vs), s2)
      else if tagByte = 110 then (.ok .pyNone, s)  -- ord 'n'
      else if tagByte = 98 then  -- ord 'b'
        match readInt8 s with
        | (.error e, s1) => (.error e, s1)
        | (.ok v, s1) => (.ok (.pyBool (v != 0)), s1)
      else if tagByte = 105 then  -- ord 'i'
        match readInt32 s with
        | (.error e, s1) => (.error e, s1)
        | (.ok v, s1) => (.ok (.int32 v), s1)
      else if tagByte = 73 then  -- ord 'I'
        match readInt64 s with
        | (.error e, s1) => (.error e, s1)
        | (.ok v, s1) => (.ok (.int64 v), s1)
      else if tagByte = 102 then  -- ord 'f'
        match readChunk 8 s with
        | (.error e, s1) => (.error e, s1)
        | (.ok bs, s1) => (.ok (.float64 bs), s1)
      else if tagByte = 70 then  -- ord 'F'
        match readInt64 s with
        | (.error e, s1) => (.error e, s1)
        | (.ok num, s1) =>
          match readInt64 s1 with
          | (.error e, s2) => (.error e, s2)
          | (.ok den, s2) =>
            match mkFraction num den with
            | .error e => (.error e, s2)
            | .ok (a, b) => (.ok (.fraction a b), s2)
      else if tagByte = 115 then  -- ord 's'
        match readString s with
        | (.error e, s1) => (.error e, s1)
        | (.ok bs, s1) => (.ok (.str bs), s1)
      else if tagByte = 108 then  -- ord 'l'
        match readInt32 s with
        | (.error e, s1) => (.error e, s1)
        | (.ok len, s1) =>
          -- a negative count makes `range(length)` empty, hence `toNat`
          match decodeManyF objs fuel len.toNat s1 with
          | (.error e, s2) => (.error e, s2)
          | (.ok vs, s2) => (.ok (.list vs), s2)
      else if tagByte = 114 then  -- ord 'r'
        match decodeValueF objs fuel s with
        | (.error e, s1) => (.error e, s1)
        | (.ok lower, s1) =>
          match decodeValueF objs fuel s1 with
          | (.error e, s2) => (.error e, s2)
          | (.ok upper, s2) =>
            match decodeValueF objs fuel s2 with
            | (.error e, s3) => (.error e, s3)
            | (.ok step, s3) =>
              match asIndex lower with
              | .error e => (.error e, s3)
              | .ok lo =>
                match asIndex upper with
                | .error e => (.error e, s3)
                | .ok hi =>
                  match asIndex step with
                  | .error e => (.error e, s3)
                  | .ok sp =>
                    if sp = 0 then (.error .valueError, s3)
                    else (.ok (.range' lo hi sp), s3)
      else if tagByte = 111 then  -- ord 'o'
        match readInt32 s with
        | (.error e, s1) => (.error e, s1)
        | (.ok idx, s1) =>
          match objs idx with
          | none => (.error .keyError, s1)
          | some _ => (.ok (.obj idx), s1)
      else (.error .unknownTag, s)

/-- The comprehensions of the `t` and `l` tags: decode `k` values in
order. -/
def decodeManyF (objs : RpcMap Unit) : Nat → Nat → ReadState → Except Err (List RpcVal) × ReadState
  | 0, _, st => (.error .fuel, st)
  | _ + 1, 0, st => (.ok [], st)
  | fuel + 1, k + 1, st =>
    match decodeValueF objs fuel st with
    | (.error e, s) => (.error e, s)
    | (.ok v, s) =>
      match decodeManyF objs fuel k s with
      | (.error e, s1) => (.error e, s1)
      | (.ok vs, s1) => (.ok (v :: vs), s1)

end

/-- `_receive_rpc_args(rpc_map)`: decode values until the sentinel is
produced, collecting the preceding values in order.  `vfuel` is the fuel
handed to each value decode, `afuel` bounds the loop. -/
def receiveRpcArgs (objs : RpcMap Unit) (vfuel : Nat) :
    Nat → ReadState → Except Err (List RpcVal) × ReadState
  | 0, st => (.error .fuel, st)
  | afuel + 1, st =>
    match decodeValueF objs vfuel st with
    | (.error e, s) => (.error e, s)
    | (.ok .sentinel, s) => (.ok [], s)
    | (.ok v, s) =>
      match receiveRpcArgs objs vfuel afuel s with
      | (.error e, s1) => (.error e, s1)
      | (.ok args, s1) => (.ok (v :: args), s1)

/-- A Python value returned by an RPC callable, as far as the result
check at the end of the `try` block in `_serve_rpc` can distinguish it
(`bool` is an `int` subclass in Python, so it passes `isinstance`). -/
inductive PyRes where
  | pyInt (v : Int)
  | pyBool (b : Bool)
  | nonInt
  deriving DecidableEq, Repr

/-- The result check of `_serve_rpc`:
`if not isinstance(result, int) or not (-2**31 < result < 2**31-1)`
raises `ValueError("An RPC must return an int(width=32)")`; otherwise
the comparison value of the result is encoded.  `none` is the raise. -/
def resultValue : PyRes → Option Int
  | .pyInt v => if -2 ^ 31 < v ∧ v < 2 ^ 31 - 1 then some v else none
  | .pyBool b => if -2 ^ 31 < (if b then (1 : Int) else 0) ∧ (if b then (1 : Int) else 0) < 2 ^ 31 - 1
                 then some (if b then 1 else 0) else none
  | .nonInt => none

/-- One entry of `traceback.extract_tb`: source file, line, function
name (the source text member plays no role here). -/
structure Frame where
  file : List Nat
  line : Int
  fn : List Nat

/-- What invoking an RPC callable does: return a value, raise an
`ARTIQException` (with its structured fields), or raise any other
exception — carrying its type name, its `str()`, and the traceback
frames of the callable itself (empty for a C-level callable, nonempty
for any Python-level one; the `_serve_rpc` frame is prepended by the
engine when the exception is caught there). -/
inductive CallOutcome where
  | ok (result : PyRes)
  | artiq (name msg : List Nat) (p1 p2 p3 : Int) (file : List Nat) (line col : Int) (fn : List Nat)
  | exn (tyName msg : List Nat) (frames : List Frame)

/-- The absolute path of `comm_generic.py` as it appears in traceback
frames: environment-dependent, carried as an opaque constant (its
content is not load-bearing for any property here). -/
def commGenericFile : List Nat := strBytes "comm_generic.py"

/-- Function-name member of the `_serve_rpc` traceback frames. -/
def serveRpcFnName : List Nat := strBytes "_serve_rpc"

/-- The `_serve_rpc` frame as it appears when an exception raised by the
invoked callable (or the `rpc_map[service]` lookup) propagates through
the `result = rpc_map[service](*args)` line. -/
def serveCallFrame : Frame := { file := commGenericFile, line := 331, fn := serveRpcFnName }

/-- The `_serve_rpc` frame for the `ValueError` raised by the result
check itself. -/
def serveRaiseFrame : Frame := { file := commGenericFile, line := 333, fn := serveRpcFnName }

/-- Type name and message of the result-check `ValueError`. -/
def valueErrorTyName : List Nat := strBytes "ValueError"

def rpcResultMsg : List Nat := strBytes "An RPC must return an int(width=32)"

/-- Type name of the `KeyError` from an absent `rpc_map[service]`. -/
def keyErrorTyName : List Nat := strBytes "KeyError"

/-- `str()` of that `KeyError` (the missing key's repr; value-dependent,
carried as an opaque constant — not load-bearing). -/
def keyErrorMsg : List Nat := strBytes "service"

/-- The `except Exception` handler of `_serve_rpc`: build the
RPC_EXCEPTION reply from the exception's type name and description,
zero-filling the three numeric parameters and encoding the column as
-1.  The single-element destructuring of `traceback.extract_tb` raises
`ValueError` unless the traceback has exactly one frame; in that case
nothing is flushed and the error propagates. -/
def genericExceptReply (tyName msg : List Nat) (tb : List Frame) : Except Err (List Nat) :=
  match tb with
  | [f] =>
    .ok (writeFlush
      { writeType := .RPC_EXCEPTION,
        writeBuffer :=
          stringChunks tyName ++ stringChunks msg ++
          [be8 0, be8 0, be8 0] ++
          stringChunks f.file ++ [be4 f.line, be4 (-1)] ++ stringChunks f.fn }).1
  | _ => .error .unpackError

/-- The `except ARTIQException` handler of `_serve_rpc`: the reply
carries the exception's own name, message, three parameters and origin
location. -/
def artiqExceptReply (name msg : List Nat) (p1 p2 p3 : Int)
    (file : List Nat) (line col : Int) (fn : List Nat) : List Nat :=
  (writeFlush
    { writeType := .RPC_EXCEPTION,
      writeBuffer :=
        stringChunks name ++ stringChunks msg ++
        [be8 p1, be8 p2, be8 p3] ++
        stringChunks file ++ [be4 line, be4 col] ++ stringChunks fn }).1

/-- `_serve_rpc(rpc_map)`: read the service index and the argument
list, invoke the mapped callable, and flush exactly one reply —
RPC_REPLY on success, RPC_EXCEPTION on a callable failure.  Returns the
flushed bytes, or the error that propagates out of `_serve_rpc`
(argument-decode failures, and the handler's own destructuring
failure). -/
def serveRpc (rpcMap : RpcMap (List RpcVal → CallOutcome)) (st : ReadState) :
    Except Err (List Nat) × ReadState :=
  match readInt32 st with
  | (.error e, s) => (.error e, s)
  | (.ok service, s) =>
    match receiveRpcArgs (fun i => (rpcMap i).map (fun _ => ()))
        (s.stream.length + 1) (s.stream.length + 1) s with
    | (.error e, s1) => (.error e, s1)
    | (.ok args, s1) =>
      match rpcMap service with
      | none =>
        -- `rpc_map[service]` raises KeyError inside the try block; the
        -- dict lookup adds no Python frame, so the caught traceback is
        -- the `_serve_rpc` frame alone.
        match genericExceptReply keyErrorTyName keyErrorMsg [serveCallFrame] with
        | .error e => (.error e, s1)
        | .ok out => (.ok out, s1)
      | some f =>
        match f args with
        | .ok r =>
          match resultValue r with
          | some v => (.ok (writeFlush { writeType := .RPC_REPLY, writeBuffer := [be4 v] }).1, s1)
          | none =>
            -- the ValueError of the result check, raised (and caught)
            -- inside `_serve_rpc` itself: a one-frame traceback
            match genericExceptReply valueErrorTyName rpcResultMsg [serveRaiseFrame] with
            | .error e => (.error e, s1)
            | .ok out => (.ok out, s1)
        | .artiq name msg p1 p2 p3 file line col fn =>
          (.ok (artiqExceptReply name msg p1 p2 p3 file line col fn), s1)
        | .exn tyName msg frames =>
          match genericExceptReply tyName msg (serveCallFrame :: frames) with
          | .error e => (.error e, s1)
          | .ok out => (.ok out, s1)

/-- `[self._read_int32() for _ in range(k)]` (backtrace entries). -/
def readInt32List (k : Nat) (st : ReadState) : Except Err (List Int) × ReadState :=
  match k with
  | 0 => (.ok [], st)
  | k' + 1 =>
    match readInt32 st with
    | (.error e, s) => (.error e, s)
    | (.ok v, s) =>
      match readInt32List k' s with
      | (.error e, s1) => (.error e, s1)
      | (.ok vs, s1) => (.ok (v :: vs), s1)

/-- `_serve_exception`: decode the full remote exception record, then
raise `ARTIQException` to the caller of `serve`.  Always ends in an
error — either a decode failure or the deliberate raise. -/
def serveException (st : ReadState) : Err × ReadState :=
  match readString st with
  | (.error e, s) => (e, s)
  | (.ok _, s) =>
    match readString s with
    | (.error e, s1) => (e, s1)
    | (.ok _, s1) =>
      match readInt64 s1 with
      | (.error e, s2) => (e, s2)
      | (.ok _, s2) =>
        match readInt64 s2 with
        | (.error e, s3) => (e, s3)
        | (.ok _, s3) =>
          match readInt64 s3 with
          | (.error e, s4) => (e, s4)
          | (.ok _, s4) =>
            match readString s4 with
            | (.error e, s5) => (e, s5)
            | (.ok _, s5) =>
              match readInt32 s5 with
              | (.error e, s6) => (e, s6)
              | (.ok _, s6) =>
                match readInt32 s6 with
                | (.error e, s7) => (e, s7)
                | (.ok _, s7) =>
                  match readString s7 with
                  | (.error e, s8) => (e, s8)
                  | (.ok _, s8) =>
                    match readInt32 s8 with
                    | (.error e, s9) => (e, s9)
                    | (.ok n, s9) =>
                      if n < 0 then (.artiqException, s9)
                      else
                        match readInt32List n.toNat s9 with
                        | (.error e, s10) => (e, s10)
                        | (.ok _, s10) => (.artiqException, s10)

/-- `serve(rpc_map)`: the dispatch loop.  Accumulates the transport
writes; the fuel bounds the number of iterations (the Python loop is
unbounded). -/
def serve (rpcMap : RpcMap (List RpcVal → CallOutcome)) :
    Nat → ReadState → List Nat → Except Err Unit × List Nat × ReadState
  | 0, st, ws => (.error .fuel, ws, st)
  | fuel + 1, st, ws =>
    match readHeader st with
    | (.error e, st') => (.error e, ws, st')
    | (.ok ty, st') =>
      if ty = .RPC_REQUEST then
        match serveRpc rpcMap st' with
        | (.error e, st1) => (.error e, ws, st1)
        | (.ok out, st1) => serve rpcMap fuel st1 (ws ++ out)
      else if ty = .KERNEL_EXCEPTION then
        match serveException st' with
        | (e, st1) => (.error e, ws, st1)
      else
        match readExpect .KERNEL_FINISHED ty with
        | .error e => (.error e, ws, st')
        | .ok _ => (.ok (), ws, st')

/-- The empty RPC map (no registered services or objects). -/
def emptyRpcMap : RpcMap (List RpcVal → CallOutcome) := fun _ => none

/-! ## Supporting lemmas -/

theorem foldl_add_length (cs : List (List Nat)) (a : Nat) :
    (cs.map List.length).foldl (· + ·) a = a + cs.flatten.length := by
  induction cs generalizing a with
  | nil => simp
  | cons c cs ih => simp [ih, Nat.add_assoc]

/-! ## Claims -/

/-- C1, counterexample: the claim says encoding an RPC integer result of
exactly `2^31 - 1` succeeds, but the source's range check
`-2**31 < result < 2**31-1` is strict on both ends, so the result check
rejects `2^31 - 1` (the reply is the encoding `ValueError`, not an
RPC_REPLY). -/
theorem c1_claim_counterexample : resultValue (.pyInt (2 ^ 31 - 1)) = none := by decide

/-- C1, amended: encoding an integer RPC service result `v` succeeds
exactly when `-2^31 < v < 2^31 - 1`, with both endpoints excluded — so
`-2^31`, `2^31 - 1` and `2^31` all fail with the encoding error, as does
a non-integral result; nothing is silently truncated. -/
theorem c1_result_check :
    (∀ v : Int, resultValue (.pyInt v) = some v ↔ (-2 ^ 31 < v ∧ v < 2 ^ 31 - 1))
    ∧ resultValue (.pyInt (-2 ^ 31)) = none
    ∧ resultValue (.pyInt (2 ^ 31)) = none
    ∧ resultValue .nonInt = none := by
  refine ⟨fun v => ?_, by decide, by decide, rfl⟩
  by_cases h : -2 ^ 31 < v ∧ v < 2 ^ 31 - 1
  · simp [resultValue, h]
  · simp [resultValue, h]

theorem c1_result_check_witness : resultValue (.pyInt 42) = some 42 :=
  (c1_result_check.1 42).mpr (by decide)

/-- C3, counterexample: the claim says the pending buffer is empty after
`flush()`, but `_write_flush` does not clear `_write_buffer` — after
flushing a one-chunk buffer the buffer still holds that chunk. -/
theorem c3_claim_counterexample :
    (writeFlush { writeType := .LOG_REQUEST, writeBuffer := [[1]] }).2.writeBuffer ≠ [] := by
  decide

/-- C3, amended: `flush()` writes exactly the four sync bytes `0x5a`,
the 4-byte big-endian length (total chunk length + 9), the 1-byte kind
code, then each chunk in order; the pending buffer is left unchanged by
the flush and is cleared only by the next `beginMessage`
(`_write_header`). -/
theorem c3_flush_layout (k : H2DMsgType) (cs : List (List Nat)) :
    (writeFlush { writeType := k, writeBuffer := cs }).1 =
      [0x5a, 0x5a, 0x5a, 0x5a] ++ be4 (9 + (cs.flatten.length : Int)) ++ [k.val] ++ cs.flatten
    ∧ (writeFlush { writeType := k, writeBuffer := cs }).2 =
      { writeType := k, writeBuffer := cs }
    ∧ ∀ k', writeHeader k' (writeFlush { writeType := k, writeBuffer := cs }).2 =
      { writeType := k', writeBuffer := [] } := by
  refine ⟨?_, rfl, fun k' => rfl⟩
  show be4 0x5a5a5a5a ++ be4 (9 + ((cs.map List.length).foldl (· + ·) 0 : Nat)) ++ _ ++ _ = _
  rw [foldl_add_length, Nat.zero_add]
  rfl

theorem c3_flush_layout_witness :
    (writeFlush { writeType := .LOG_REQUEST, writeBuffer := [[1], [2, 3]] }).1 =
      [0x5a, 0x5a, 0x5a, 0x5a] ++ be4 (9 + (([[1], [2, 3]] : List (List Nat)).flatten.length : Int))
        ++ [H2DMsgType.val .LOG_REQUEST] ++ ([[1], [2, 3]] : List (List Nat)).flatten :=
  (c3_flush_layout .LOG_REQUEST [[1], [2, 3]]).1

/-- C6: for every stream made of a finite noise run of non-`0x5a` bytes
followed by exactly four `0x5a` bytes, the synchronization phase of
`_read_header` consumes exactly the noise plus the four sync bytes
(whatever the noise's content or length — a non-sync byte resets the
match counter), and the header read then proceeds from the length field
exactly as if the noise had not been there. -/
theorem c6_resync (noise rest : List Nat) (h : ∀ b ∈ noise, b ≠ 0x5a) :
    syncLoop 0 (noise ++ ([0x5a, 0x5a, 0x5a, 0x5a] ++ rest)) = some rest
    ∧ readHeader { readLength := 0, stream := noise ++ ([0x5a, 0x5a, 0x5a, 0x5a] ++ rest) } =
      readHeader { readLength := 0, stream := [0x5a, 0x5a, 0x5a, 0x5a] ++ rest } := by
  have hsync : ∀ tail : List Nat,
      syncLoop 0 ([0x5a, 0x5a, 0x5a, 0x5a] ++ tail) = some tail := by
    intro tail
    simp [syncLoop]
  have hmain : syncLoop 0 (noise ++ ([0x5a, 0x5a, 0x5a, 0x5a] ++ rest)) = some rest := by
    induction noise with
    | nil => simpa using hsync rest
    | cons b bs ih =>
      have hb : b ≠ 0x5a := h b (List.mem_cons_self b bs)
      have ihh := ih (fun x hx => h x (List.mem_cons_of_mem b hx))
      simpa [syncLoop, hb] using ihh
  refine ⟨hmain, ?_⟩
  have hmain' : syncLoop 0 (noise ++ 0x5a :: 0x5a :: 0x5a :: 0x5a :: rest) = some rest := by
    simpa using hmain
  have hsync' : syncLoop 0 (0x5a :: 0x5a :: 0x5a :: 0x5a :: rest) = some rest := by
    simpa using hsync rest
  simp [readHeader, hmain', hsync']

theorem c6_resync_witness :
    syncLoop 0 ([1, 2, 3] ++ ([0x5a, 0x5a, 0x5a, 0x5a] ++ [9])) = some [9] :=
  (c6_resync [1, 2, 3] [9] (by decide)).1

/-- C7: `_read_chunk(n)` with remaining body length `r` fails with the
overrun error, consuming nothing, when `n > r`; otherwise it returns
exactly the next `n` transport bytes and the remaining body length
becomes `r - n`. -/
theorem c7_read_chunk (n : Nat) (st : ReadState) :
    (st.readLength < (n : Int) → readChunk n st = (.error .readOverrun, st))
    ∧ ((n : Int) ≤ st.readLength → n ≤ st.stream.length →
        readChunk n st =
          (.ok (st.stream.take n),
           { readLength := st.readLength - (n : Int), stream := st.stream.drop n })
        ∧ (st.stream.take n).length = n) := by
  constructor
  · intro hlt
    simp [readChunk, hlt]
  · intro hle hstream
    constructor
    · simp [readChunk, Int.not_lt.mpr hle, transportRead, hstream]
    · simp [List.length_take]
      omega

/-- C5, counterexample: a header declaring length 5 with the unknown
kind code 99 fails with the unknown-kind decode error, not the
header-overrun error the claim promises: `_read_header` validates the
type code through the enum before it checks the length minimum. -/
theorem c5_claim_counterexample :
    readHeader { readLength := 0, stream := [0x5a, 0x5a, 0x5a, 0x5a, 0, 0, 0, 5, 99] } =
      (.error .unknownType, { readLength := 5, stream := [] })
    ∧ Err.unknownType ≠ Err.headerOverrun := ⟨rfl, by decide⟩

set_option maxRecDepth 4000 in
/-- C5, amended: for every header whose declared length field is between
1 and 8, `_read_header` consumes and validates the type byte first — an
unknown kind code fails with the unknown-kind decode error, and only a
known code reaches the header-overrun error; in both cases no body byte
is consumed (the body `rest` is still untouched on the transport). -/
theorem c5_short_length_header (l tyByte : Nat) (rest : List Nat)
    (h1 : 1 ≤ l) (h8 : l ≤ 8) :
    readHeader ⟨0, 0x5a :: 0x5a :: 0x5a :: 0x5a :: 0 :: 0 :: 0 :: l :: tyByte :: rest⟩ =
      ((match d2hOfNat tyByte with
        | none => Except.error Err.unknownType
        | some _ => Except.error Err.headerOverrun),
       { readLength := (l : Int), stream := rest }) := by
  have hs : syncLoop 0 (0x5a :: 0x5a :: 0x5a :: 0x5a :: 0 :: 0 :: 0 :: l :: tyByte :: rest) =
      some (0 :: 0 :: 0 :: l :: tyByte :: rest) := by
    simp [syncLoop]
  have ht4 : transportRead 4 (0 :: 0 :: 0 :: l :: tyByte :: rest) =
      some ([0, 0, 0, l], tyByte :: rest) := by
    simp [transportRead]
  have ht1 : transportRead 1 (tyByte :: rest) = some ([tyByte], rest) := by
    simp [transportRead]
  have hval : toSigned32 (beUInt [0, 0, 0, l]) = (l : Int) := by
    have h31 : l < 2147483648 := by omega
    simp [beUInt, toSigned32, h31]
  have hne : ¬((l : Int) = 0) := by omega
  have hlt9 : (l : Int) < 9 := by omega
  have hty1 : beUInt [tyByte] = tyByte := by simp [beUInt]
  cases hty : d2hOfNat tyByte with
  | none => simp [readHeader, hs, ht4, ht1, hval, hne, hty1, hty]
  | some t => simp [readHeader, hs, ht4, ht1, hval, hne, hty1, hty, hlt9]

theorem c5_short_length_header_witness :
    readHeader ⟨0, 0x5a :: 0x5a :: 0x5a :: 0x5a :: 0 :: 0 :: 0 :: 5 :: 7 :: []⟩ =
      (Except.error Err.headerOverrun, { readLength := ((5 : Nat) : Int), stream := [] }) := by
  rw [c5_short_length_header 5 7 [] (by decide) (by decide)]
  rfl

/-- C10, counterexample: `_read_header` assigns the raw declared length
to `_read_length` before validating it, so a frame declaring length -5
leaves the remaining-body-length negative after the failed header read —
the claim says it is non-negative after every reader operation,
including failing ones. -/
theorem c10_claim_counterexample :
    readHeader ⟨0, [0x5a, 0x5a, 0x5a, 0x5a, 0xff, 0xff, 0xff, 0xfb, 7]⟩ =
      (.error .headerOverrun, { readLength := -5, stream := [] })
    ∧ (-5 : Int) < 0 := ⟨rfl, by decide⟩

/-- C10, amended: the remaining-body-length is 0 initially, stays
non-negative across every `_read_chunk` call (overrun failure, transport
failure, and success alike), and is non-negative after every successful
`_read_header`; only a failing `_read_header` can leave it negative,
because the raw declared length is assigned to it before validation. -/
theorem c10_remaining_nonneg :
    (∀ s, (initReadState s).readLength = 0)
    ∧ (∀ (n : Nat) (st : ReadState), 0 ≤ st.readLength → 0 ≤ (readChunk n st).2.readLength)
    ∧ (∀ (st st' : ReadState) (ty : D2HMsgType),
        readHeader st = (.ok ty, st') → 0 ≤ st'.readLength) := by
  refine ⟨fun s => rfl, ?_, ?_⟩
  · intro n st h
    by_cases hc : st.readLength < (n : Int)
    · simpa [readChunk, hc] using h
    · rcases htr : transportRead n st.stream with _ | ⟨bs, s⟩ <;>
        simp [readChunk, hc, htr] <;> omega
  · intro st st' ty h
    simp only [readHeader] at h
    split at h
    · simp at h
    · split at h
      · simp at h
      · split at h
        · simp at h
        · split at h
          · simp at h
          · split at h
            · simp at h
            · split at h
              · simp at h
              · split at h
                · simp at h
                · rename_i hlen9
                  simp only [Prod.mk.injEq, Except.ok.injEq] at h
                  obtain ⟨-, h2⟩ := h
                  subst h2
                  simp only
                  omega

theorem c10_remaining_nonneg_witness :
    (0 : Int) ≤ (readChunk 1 { readLength := 2, stream := [9] }).2.readLength :=
  c10_remaining_nonneg.2.1 1 { readLength := 2, stream := [9] } (by decide)

theorem c7_read_chunk_witness :
    readChunk 2 { readLength := 3, stream := [7, 8, 9] } =
      (.ok (([7, 8, 9] : List Nat).take 2),
       { readLength := (3 : Int) - (2 : Nat), stream := ([7, 8, 9] : List Nat).drop 2 }) :=
  ((c7_read_chunk 2 { readLength := 3, stream := [7, 8, 9] }).2 (by decide) (by decide)).1

/-- C8: `_receive_rpc_args` collects exactly the decoded values that
precede the sentinel, in order: a decoded non-sentinel value is consed
onto the arguments decoded from the remaining stream, a decoded sentinel
ends the list, the sentinel itself never appears in a returned argument
list, and decoding the body `[tag i, int32 42, tag 0]` yields exactly
`[42]`. -/
theorem c8_receive_args :
    (∀ (om : RpcMap Unit) (vfuel afuel : Nat) (st st' st'' : ReadState)
        (v : RpcVal) (args : List RpcVal),
        decodeValueF om vfuel st = (.ok v, st') → v ≠ .sentinel →
        receiveRpcArgs om vfuel afuel st' = (.ok args, st'') →
        receiveRpcArgs om vfuel (afuel + 1) st = (.ok (v :: args), st''))
    ∧ (∀ (om : RpcMap Unit) (vfuel afuel : Nat) (st st' : ReadState),
        decodeValueF om vfuel st = (.ok .sentinel, st') →
        receiveRpcArgs om vfuel (afuel + 1) st = (.ok [], st'))
    ∧ (∀ (om : RpcMap Unit) (vfuel afuel : Nat) (st st' : ReadState) (args : List RpcVal),
        receiveRpcArgs om vfuel afuel st = (.ok args, st') → RpcVal.sentinel ∉ args)
    ∧ receiveRpcArgs (fun _ => none) 3 3 ⟨6, [105, 0, 0, 0, 42, 0]⟩ =
        (.ok [.int32 42], ⟨0, []⟩) := by
  refine ⟨?_, ?_, ?_, rfl⟩
  · intro om vfuel afuel st st' st'' v args hv hvs ha
    cases v <;> simp_all [receiveRpcArgs]
  · intro om vfuel afuel st st' hv
    simp [receiveRpcArgs, hv]
  · intro om vfuel afuel
    induction afuel with
    | zero => intro st st' args h; simp [receiveRpcArgs] at h
    | succ n ih =>
      intro st st' args h
      simp only [receiveRpcArgs] at h
      rcases hd : decodeValueF om vfuel st with ⟨res, s⟩
      rw [hd] at h
      cases res with
      | error e => simp at h
      | ok v =>
        cases v <;> simp_all <;>
          (rcases hr : receiveRpcArgs om vfuel n s with ⟨ares, s1⟩
           rw [hr] at h
           cases ares with
           | error e => simp at h
           | ok args' =>
             simp only [Prod.mk.injEq, Except.ok.injEq] at h
             obtain ⟨rfl, -⟩ := h
             simp only [List.mem_cons, not_or]
             exact ⟨by simp, fun hmem => ih s s1 args' hr hmem⟩)

theorem c8_receive_args_witness :
    receiveRpcArgs (fun _ => none) 3 2 ⟨6, [105, 0, 0, 0, 42, 0]⟩ =
      (.ok [.int32 42], ⟨0, []⟩) :=
  c8_receive_args.1 (fun _ => none) 3 1 ⟨6, [105, 0, 0, 0, 42, 0]⟩ ⟨1, [0]⟩ ⟨0, []⟩
    (.int32 42) [] rfl (by simp) rfl

/-- C9: the serve loop ends successfully only through a KERNEL_FINISHED
header — for a header of any kind other than RPC_REQUEST and
KERNEL_EXCEPTION one iteration returns success exactly when the kind is
KERNEL_FINISHED and otherwise fails with the protocol-mismatch error of
`_read_expect`; a KERNEL_EXCEPTION header ends the loop with the raise
from `_serve_exception`; any successful run's final reader state is the
one produced by a KERNEL_FINISHED header read; and a serve loop fed one
KERNEL_FINISHED frame and nothing else returns success having written
nothing to the transport. -/
theorem c9_serve_finish :
    (∀ (rm : RpcMap (List RpcVal → CallOutcome)) (fuel : Nat) (st st' : ReadState)
        (ws : List Nat) (ty : D2HMsgType),
        readHeader st = (.ok ty, st') → ty ≠ .RPC_REQUEST → ty ≠ .KERNEL_EXCEPTION →
        serve rm (fuel + 1) st ws =
          if ty = .KERNEL_FINISHED then (.ok (), ws, st')
          else (.error .unexpectedReply, ws, st'))
    ∧ (∀ (rm : RpcMap (List RpcVal → CallOutcome)) (fuel : Nat) (st st' : ReadState)
        (ws : List Nat),
        readHeader st = (.ok .KERNEL_EXCEPTION, st') →
        serve rm (fuel + 1) st ws =
          (.error (serveException st').1, ws, (serveException st').2))
    ∧ (∀ (rm : RpcMap (List RpcVal → CallOutcome)) (fuel : Nat) (st : ReadState)
        (ws : List Nat) (res : List Nat × ReadState),
        serve rm fuel st ws = (.ok (), res) →
        ∃ stp, readHeader stp = (.ok .KERNEL_FINISHED, res.2))
    ∧ serve emptyRpcMap 1 ⟨0, [0x5a, 0x5a, 0x5a, 0x5a, 0, 0, 0, 9, 7]⟩ [] =
        (.ok (), [], ⟨0, []⟩) := by
  refine ⟨?_, ?_, ?_, rfl⟩
  · intro rm fuel st st' ws ty h h1 h2
    by_cases hk : ty = .KERNEL_FINISHED <;> simp [serve, h, h1, h2, hk, readExpect]
  · intro rm fuel st st' ws h
    rcases hse : serveException st' with ⟨e, s1⟩
    simp [serve, h, hse]
  · intro rm fuel
    induction fuel with
    | zero => intro st ws res h; simp [serve] at h
    | succ n ih =>
      intro st ws res h
      simp only [serve] at h
      split at h
      · simp at h
      · rename_i ty st' hh
        by_cases hrpc : ty = .RPC_REQUEST
        · subst hrpc
          rw [if_pos rfl] at h
          split at h
          · simp at h
          · exact ih _ _ res h
        · rw [if_neg hrpc] at h
          by_cases hke : ty = .KERNEL_EXCEPTION
          · subst hke
            rw [if_pos rfl] at h
            simp at h
          · rw [if_neg hke] at h
            by_cases hkf : ty = .KERNEL_FINISHED
            · subst hkf
              simp only [readExpect, ne_eq, not_true, ite_false, if_neg,
                not_false_iff, reduceIte] at h
              have h2 : (ws, st') = res := congrArg Prod.snd h
              exact ⟨st, by rw [hh, ← h2]⟩
            · simp [readExpect, hkf] at h

theorem c9_serve_finish_witness :
    serve emptyRpcMap 3 ⟨0, [0x5a, 0x5a, 0x5a, 0x5a, 0, 0, 0, 9, 1]⟩ [] =
      (.error .unexpectedReply, [], ⟨0, []⟩) := by
  rw [c9_serve_finish.1 emptyRpcMap 2 ⟨0, [0x5a, 0x5a, 0x5a, 0x5a, 0, 0, 0, 9, 1]⟩
    ⟨0, []⟩ [] .LOG_REPLY rfl (by simp) (by simp)]
  rfl

/-- The traceback frame of an ordinary Python-level RPC callable
raising an exception (any Python function has at least this one frame of
its own below the `_serve_rpc` frame). -/
def pyCallableFrame : Frame := { file := strBytes "experiment.py", line := 5, fn := strBytes "f" }

/-- An RPC map binding service index 3 to a Python-level callable that
raises `ZeroDivisionError` (one active frame of its own). -/
def c2RpcMap : RpcMap (List RpcVal → CallOutcome) := fun i =>
  if i = 3 then
    some (fun _ =>
      .exn (strBytes "ZeroDivisionError") (strBytes "division by zero") [pyCallableFrame])
  else none

/-- One RPC_REQUEST frame for service 3 with an empty argument list:
sync, length 14 (= 9 + 4-byte service index + 1-byte sentinel tag),
kind 10, service 3, sentinel. -/
def c2Stream : List Nat := [0x5a, 0x5a, 0x5a, 0x5a, 0, 0, 0, 14, 10, 0, 0, 0, 3, 0]

/-- C2, the failing input: a serve loop fed one RPC_REQUEST for a
Python-level callable that raises.  The caught traceback is the
`_serve_rpc` frame plus the callable's own frame — two entries — so the
handler's one-element destructuring
`((filename, line, function, _), ) = traceback.extract_tb(...)` itself
raises `ValueError`, which propagates out of the serve loop before
anything is flushed: no RPC_EXCEPTION reply is written and the loop
aborts, where the claim (and the spec's intent) says the failure is
caught locally and replied.  (The handler works only when the traceback
has exactly one frame, e.g. for the result-check `ValueError` raised in
`_serve_rpc` itself.) -/
theorem c2_handler_crash :
    serve c2RpcMap 2 ⟨0, c2Stream⟩ [] = (.error .unpackError, [], ⟨0, []⟩)
    ∧ genericExceptReply (strBytes "ZeroDivisionError") (strBytes "division by zero")
        [serveCallFrame, pyCallableFrame] = .error .unpackError := ⟨rfl, rfl⟩

/-- For contrast: when the exception's traceback below `_serve_rpc` is
empty (a C-level callable), the generic handler does reply
RPC_EXCEPTION and the loop continues to the next header — the intended
behavior, confirming that the two-frame crash above is the deviation. -/
theorem serve_continues_after_single_frame_failure :
    (serve
      (fun i => if i = 3 then
          some (fun _ => .exn (strBytes "ZeroDivisionError") (strBytes "division by zero") [])
        else none)
      2 ⟨0, c2Stream ++ [0x5a, 0x5a, 0x5a, 0x5a, 0, 0, 0, 9, 7]⟩ []).1 = .ok ()
    ∧ ((serve
      (fun i => if i = 3 then
          some (fun _ => .exn (strBytes "ZeroDivisionError") (strBytes "division by zero") [])
        else none)
      2 ⟨0, c2Stream ++ [0x5a, 0x5a, 0x5a, 0x5a, 0, 0, 0, 9, 7]⟩ []).2.1).take 9 =
      [0x5a, 0x5a, 0x5a, 0x5a, 0, 0, 0, 119, 7] := ⟨rfl, by decide⟩

theorem ediv_mul_swap (g n d : Int) (hn : g ∣ n) (hd : g ∣ d) :
    n / g * d = n * (d / g) := by
  rcases hn with ⟨n', rfl⟩
  rcases hd with ⟨d', rfl⟩
  by_cases hg : g = 0
  · subst hg; simp
  · rw [Int.mul_ediv_cancel_left _ hg, Int.mul_ediv_cancel_left _ hg]; ring

/-- C4, counterexample: decoding tag `F` with numerator 2 and
denominator 4 on the wire yields the fraction 1/2 — `Fraction(2, 4)`
normalizes — not a rational whose numerator and denominator are exactly
the two values read, as the claim states. -/
theorem c4_claim_counterexample :
    (decodeValueF (fun _ => none) 2
        ⟨17, [70, 0, 0, 0, 0, 0, 0, 0, 2, 0, 0, 0, 0, 0, 0, 0, 4]⟩).1 =
      .ok (.fraction 1 2)
    ∧ RpcVal.fraction 1 2 ≠ RpcVal.fraction 2 4 := ⟨rfl, by simp⟩

/-- C4, amended: decoding tag `F` reads two int64 values (numerator,
denominator) and returns `Fraction(numerator, denominator)`: for a
nonzero denominator that is the normalized rational — equal in value to
the pair read (`a * d = n * b`), with positive denominator and coprime
components, but not the raw pair itself; a zero denominator raises
`ZeroDivisionError` instead of being preserved. -/
theorem c4_fraction_decode :
    (∀ (om : RpcMap Unit) (fuel : Nat) (nb db rest : List Nat) (L : Int),
        nb.length = 8 → db.length = 8 → 17 ≤ L →
        decodeValueF om (fuel + 1) ⟨L, 70 :: (nb ++ (db ++ rest))⟩ =
          (match mkFraction (toSigned64 (beUInt nb)) (toSigned64 (beUInt db)) with
           | .ok (a, b) => (Except.ok (RpcVal.fraction a b), ⟨L - 17, rest⟩)
           | .error e => (Except.error e, ⟨L - 17, rest⟩)))
    ∧ (∀ n d a b : Int, mkFraction n d = .ok (a, b) →
        a * d = n * b ∧ 0 < b ∧ Int.gcd a b = 1)
    ∧ (∀ n : Int, mkFraction n 0 = .error .zeroDivision) := by
  refine ⟨?_, ?_, fun n => by simp [mkFraction]⟩
  · intro om fuel nb db rest L hnb hdb hL
    have h1 : readInt8 ⟨L, 70 :: (nb ++ (db ++ rest))⟩ =
        (.ok 70, ⟨L - 1, nb ++ (db ++ rest)⟩) := by
      have hc : ¬(L < (1 : Int)) := by omega
      simp [readInt8, readChunk, transportRead, beUInt, hc]
    have h2 : readInt64 ⟨L - 1, nb ++ (db ++ rest)⟩ =
        (.ok (toSigned64 (beUInt nb)), ⟨L - 9, db ++ rest⟩) := by
      have hc : ¬(L - 1 < (8 : Int)) := by omega
      simp [readInt64, readChunk, transportRead, hc, hnb, hdb,
        List.take_left' hnb, List.drop_left' hnb]
      omega
    have h3 : readInt64 ⟨L - 9, db ++ rest⟩ =
        (.ok (toSigned64 (beUInt db)), ⟨L - 17, rest⟩) := by
      have hc : ¬(L - 9 < (8 : Int)) := by omega
      simp [readInt64, readChunk, transportRead, hc, hdb,
        List.take_left' hdb, List.drop_left' hdb]
      omega
    rcases hmk : mkFraction (toSigned64 (beUInt nb)) (toSigned64 (beUInt db)) with e | ⟨a, b⟩ <;>
      simp [decodeValueF, h1, h2, h3, hmk]
  · intro n d a b h
    simp only [mkFraction] at h
    split at h
    · simp at h
    · rename_i hd
      simp only [Except.ok.injEq, Prod.mk.injEq] at h
      obtain ⟨ha, hb⟩ := h
      subst ha
      subst hb
      have hcpos : 0 < Int.gcd n d := Int.gcd_pos_of_ne_zero_right n hd
      have hcpos' : (0 : Int) < (Int.gcd n d : Int) := by exact_mod_cast hcpos
      have hcne : ((Int.gcd n d : Int)) ≠ 0 := ne_of_gt hcpos'
      have hdvn : ((Int.gcd n d : Int)) ∣ n := Int.gcd_dvd_left
      have hdvd : ((Int.gcd n d : Int)) ∣ d := Int.gcd_dvd_right
      have hmul : (Int.gcd n d : Int) * (d / (Int.gcd n d : Int)) = d :=
        Int.mul_ediv_cancel' hdvd
      by_cases hneg : d < 0
      · rw [if_pos hneg]
        refine ⟨?_, ?_, ?_⟩
        · rw [Int.ediv_neg, Int.ediv_neg, neg_mul, mul_neg, neg_inj]
          exact ediv_mul_swap _ n d hdvn hdvd
        · rw [Int.ediv_neg]
          nlinarith [hmul, hcpos', hneg]
        · rw [Int.ediv_neg, Int.ediv_neg, Int.neg_gcd, Int.gcd_neg]
          exact Int.gcd_div_gcd_div_gcd hcpos
      · rw [if_neg hneg]
        have hpos : 0 < d := lt_of_le_of_ne (not_lt.mp hneg) (Ne.symm hd)
        refine ⟨ediv_mul_swap _ n d hdvn hdvd, ?_, Int.gcd_div_gcd_div_gcd hcpos⟩
        nlinarith [hmul, hcpos', hpos]

theorem c4_fraction_decode_witness :
    decodeValueF (fun _ => none) 1
        ⟨17, [70, 0, 0, 0, 0, 0, 0, 0, 6, 0, 0, 0, 0, 0, 0, 0, 4]⟩ =
      (.ok (.fraction 3 2), ⟨0, []⟩) := by
  have h := c4_fraction_decode.1 (fun _ => none) 0 [0, 0, 0, 0, 0, 0, 0, 6]
    [0, 0, 0, 0, 0, 0, 0, 4] [] 17 rfl rfl (by decide)
  norm_num at h
  exact h.trans rfl

end CommGeneric
